import Mathlib

/-!
Verification of the `FeedbackModal` component
(`src/frontend/src/components/modals/feedback/FeedbackModal.tsx`).

The component is shallowly embedded: the email validation regex becomes an
executable Boolean function on strings, and the `handleSendFeedback` handler
becomes a pure function from an explicit environment (local storage contents,
network outcome, translation provider) to the list of side effects it performs,
in order.
-/

namespace FeedbackModal

/-- The character class `\s` of a JavaScript regular expression:
space, tab, line feed, vertical tab, form feed, carriage return,
no-break space, ogham space mark, the en-quad..hair-space range,
line separator, paragraph separator, narrow no-break space,
medium mathematical space, ideographic space, and the byte-order mark. -/
def jsWhitespace (c : Char) : Bool :=
  c = ' ' || c = '\t' || c = '\n' || c = '\x0b' || c = '\x0c' || c = '\r' ||
  c = ' ' || c = ' ' ||
  (decide (' ' ≤ c) && decide (c ≤ ' ')) ||
  c = ' ' || c = ' ' || c = ' ' || c = ' ' ||
  c = '　' || c = '﻿'

/-- The character class `[^\s@]` used by the email regex: any character that is
neither JavaScript whitespace nor `@`. -/
def emailChar (c : Char) : Bool :=
  !jsWhitespace c && c ≠ '@'

/-- `isEmailValid` from the source: tests the anchored regular expression
`^[^\s@]+@[^\s@]+\.[^\s@]+$`.  A match is a decomposition of the character
list at an index `i` holding the literal `@` and an index `j > i` holding the
literal `.`, such that the three segments before `i`, between `i` and `j`, and
after `j` are nonempty and consist of `[^\s@]` characters.  The index bounds
`1 ≤ i`, `i + 2 ≤ j` and `j + 2 ≤ length` are exactly the nonemptiness of the
three `+`-quantified segments. -/
def isEmailValid (email : String) : Bool :=
  let cs := email.data
  (List.range cs.length).any fun i =>
    (List.range cs.length).any fun j =>
      decide (1 ≤ i) && decide (i + 2 ≤ j) && decide (j + 2 ≤ cs.length) &&
      decide (cs.get? i = some '@') && decide (cs.get? j = some '.') &&
      (cs.take i).all emailChar &&
      ((cs.drop (i + 1)).take (j - (i + 1))).all emailChar &&
      (cs.drop (j + 1)).all emailChar

/-- The pattern the regex `^[^\s@]+@[^\s@]+\.[^\s@]+$` denotes, stated as a
structural decomposition of the string: a nonempty `[^\s@]+` local part, the
literal `@`, a nonempty `[^\s@]+` segment, the literal `.`, and a nonempty
final segment of `[^\s@]` characters (excluding both whitespace and `@`). -/
def matchesEmailPattern (s : String) : Prop :=
  ∃ a b c : List Char,
    s.data = a ++ '@' :: (b ++ '.' :: c) ∧
    a ≠ [] ∧ b ≠ [] ∧ c ≠ [] ∧
    (∀ x ∈ a, emailChar x) ∧ (∀ x ∈ b, emailChar x) ∧ (∀ x ∈ c, emailChar x)

/-- The pattern as the specification words it: identical to
`matchesEmailPattern` except that the final segment is constrained only to
exclude whitespace ("then one or more non-space characters"), so it may
contain `@`. -/
def specEmailPattern (s : String) : Prop :=
  ∃ a b c : List Char,
    s.data = a ++ '@' :: (b ++ '.' :: c) ∧
    a ≠ [] ∧ b ≠ [] ∧ c ≠ [] ∧
    (∀ x ∈ a, emailChar x) ∧ (∀ x ∈ b, emailChar x) ∧
    (∀ x ∈ c, !jsWhitespace x)

example : isEmailValid "a@b.c" = true := by decide
example : isEmailValid "a@b" = false := by decide
example : isEmailValid "@b.c" = false := by decide
example : isEmailValid "a@b.c@d" = false := by decide
example : isEmailValid "user@example.com" = true := by decide
example : isEmailValid "a b@c.d" = false := by decide

/-- `const VIEWER_PAGE = "https://www.all-hands.dev/share"`. -/
def VIEWER_PAGE : String := "https://www.all-hands.dev/share"

/-- `const FEEDBACK_VERSION = "1.0"`. -/
def FEEDBACK_VERSION : String := "1.0"

/-- The `Feedback` record assembled by `handleSendFeedback`.  The trajectory is
the (sanitized) event log; its contents are opaque to this component, so it is
kept as an abstract list of events. -/
structure Feedback where
  version : String
  feedback : String
  email : String
  permissions : String
  token : Option String
  trajectory : List String
deriving DecidableEq

/-- The response of `OpenHands.sendFeedback`: a status code and a body.  On
success the body carries `message`, `feedback_id` and `password`; on failure
only `message` is meaningful. -/
structure FeedbackResponse where
  statusCode : Nat
  message : String
  feedback_id : String
  password : String
deriving DecidableEq

/-- Observable side effects of `handleSendFeedback`, in program order. -/
inductive Effect where
  /-- the `onSendFeedback()` caller notification -/
  | onSendFeedback : Effect
  /-- `localStorage.setItem(key, value)` -/
  | setItem : String → String → Effect
  /-- `localStorage.getItem(key)` -/
  | getItem : String → Effect
  /-- `OpenHands.sendFeedback(token, feedback)` -/
  | sendFeedback : String → Feedback → Effect
  /-- `shareFeedbackToast(message, link, password)` -/
  | shareToast : String → String → String → Effect
  /-- `toast.error(id, text)` -/
  | errorToast : String → String → Effect
deriving DecidableEq

/-- Modelled from the spec: `getToken` comes from the auth service
(`#/services/auth`, not under `src/`); per the spec the `token` field is an
"opaque authentication credential, read from session/persistent storage at
submission time", so it is modelled as the stored value under the
`"token"` key. -/
def getToken (storage : String → Option String) : Option String :=
  storage "token"

/-- The environment `handleSendFeedback` runs in: the local storage contents,
whether the `localStorage.setItem` call throws (and the stringified error if
so), the outcome of the network call when it is made (`Except.error e` models
a thrown transport/parse error stringified as `e`), the translation provider
`t`, and the trajectory sanitizer `removeApiKey ∘ removeUnwantedKeys` (whose
definition lives outside this file's source and is irrelevant to the claims,
so it stays abstract). -/
structure SubmitEnv where
  storage : String → Option String
  setItemFails : Option String
  response : Except String FeedbackResponse
  t : String → String
  sanitize : List String → List String

/-- `handleSendFeedback` as a pure function from its environment and component
state to the ordered list of side effects it performs.  Mirrors the source:
notify the caller, build the feedback record, then inside `try`: store the
email under `"feedback-email"`, read `"token"`, and call the service only
when the stored value is truthy — `if (token)` in JavaScript, i.e. present
and not the empty string — showing the share toast on status 200 and the
error toast otherwise; any throw inside the `try` block is caught and shown
as an error toast. -/
def handleSendFeedback (env : SubmitEnv)
    (polarity email permissions : String) (events : List String) :
    List Effect :=
  let feedback : Feedback :=
    { version := FEEDBACK_VERSION
      feedback := polarity
      email := email
      permissions := permissions
      token := getToken env.storage
      trajectory := env.sanitize events }
  Effect.onSendFeedback ::
    match env.setItemFails with
    | some err =>
        [Effect.errorToast "share-error"
          (env.t "FEEDBACK$FAILED_TO_SHARE" ++ " " ++ err)]
    | none =>
        Effect.setItem "feedback-email" email ::
        let storage1 : String → Option String :=
          fun k => if k = "feedback-email" then some email else env.storage k
        Effect.getItem "token" ::
        match storage1 "token" with
        | none => []
        | some token =>
            if token = "" then []
            else
            Effect.sendFeedback token feedback ::
            match env.response with
            | Except.error err =>
                [Effect.errorToast "share-error"
                  (env.t "FEEDBACK$FAILED_TO_SHARE" ++ " " ++ err)]
            | Except.ok response =>
                if response.statusCode = 200 then
                  [Effect.shareToast response.message
                    (VIEWER_PAGE ++ "?share_id=" ++ response.feedback_id)
                    response.password]
                else
                  [Effect.errorToast "share-error"
                    (env.t "FEEDBACK$FAILED_TO_SHARE" ++ " "
                      ++ response.message)]

/-- A footer action of the rendered modal, as passed to `BaseModal`. -/
structure ModalAction where
  label : String
  isDisabled : Bool
  closeAfterAction : Bool
deriving DecidableEq

/-- The `actions` array the component renders: the Share action, disabled
exactly when `isEmailValid email` is false, and the Cancel action. -/
def feedbackModalActions (t : String → String) (email : String) :
    List ModalAction :=
  [ { label := t "FEEDBACK$SHARE_LABEL"
      isDisabled := !isEmailValid email
      closeAfterAction := true },
    { label := t "FEEDBACK$CANCEL_LABEL"
      isDisabled := false
      closeAfterAction := true } ]

/-- The initial email state: `useState("")` followed by the mount effect that
reads `localStorage.getItem("feedback-email")` and, if present, stores it. -/
def initialEmail (storage : String → Option String) : String :=
  match storage "feedback-email" with
  | some stored => stored
  | none => ""

/-- The email state after a sequence of `handleEmailChange` edits: each edit
replaces the state with the new value. -/
def applyEdits (init : String) (edits : List String) : String :=
  edits.foldl (fun _ newEmail => newEmail) init

/-- The feedback record assembled at the start of `handleSendFeedback`. -/
def mkFeedback (env : SubmitEnv)
    (polarity email permissions : String) (events : List String) : Feedback :=
  { version := FEEDBACK_VERSION
    feedback := polarity
    email := email
    permissions := permissions
    token := getToken env.storage
    trajectory := env.sanitize events }

/-- A storage with no `"token"` entry, used to exercise the missing-credential
path on concrete inputs. -/
def storageEmpty : String → Option String := fun _ => none

/-- A storage holding a `"token"` entry. -/
def storageWithToken : String → Option String :=
  fun k => if k = "token" then some "tok123" else none

/-- The successful service response of the specification's example. -/
def sampleResponseOk : FeedbackResponse :=
  { statusCode := 200, message := "ok", feedback_id := "abc123",
    password := "p@ss" }

/-- The failing service response of the specification's example. -/
def sampleResponseErr : FeedbackResponse :=
  { statusCode := 500, message := "server error", feedback_id := "",
    password := "" }

/-- An environment with no stored credential and a healthy storage. -/
def envNoToken : SubmitEnv :=
  { storage := storageEmpty, setItemFails := none,
    response := Except.ok sampleResponseOk, t := id, sanitize := id }

/-- An environment with a stored credential and a successful response. -/
def envOk : SubmitEnv :=
  { storage := storageWithToken, setItemFails := none,
    response := Except.ok sampleResponseOk, t := id, sanitize := id }

/-- An environment with a stored credential and a 500 response. -/
def envErr : SubmitEnv :=
  { storage := storageWithToken, setItemFails := none,
    response := Except.ok sampleResponseErr, t := id, sanitize := id }

/-- An environment in which the network call throws. -/
def envThrow : SubmitEnv :=
  { storage := storageWithToken, setItemFails := none,
    response := Except.error "TypeError: Failed to fetch", t := id,
    sanitize := id }

/-- An environment in which `localStorage.setItem` throws. -/
def envSetItemThrow : SubmitEnv :=
  { storage := storageWithToken,
    setItemFails := some "QuotaExceededError", response := Except.ok sampleResponseOk,
    t := id, sanitize := id }

/-- C2: with no stored `"token"` credential (and the storage write itself
succeeding), `handleSendFeedback` never invokes the Remote Feedback Service
and shows no toast of any kind: the network path is a silent no-op. -/
theorem submit_no_token_silent (env : SubmitEnv)
    (polarity email permissions : String) (events : List String)
    (htok : env.storage "token" = none)
    (hset : env.setItemFails = none) :
    (∀ tok fb, Effect.sendFeedback tok fb ∉
        handleSendFeedback env polarity email permissions events) ∧
    (∀ m l p, Effect.shareToast m l p ∉
        handleSendFeedback env polarity email permissions events) ∧
    (∀ i s, Effect.errorToast i s ∉
        handleSendFeedback env polarity email permissions events) := by
  simp [handleSendFeedback, hset, htok]

/-- Witness for C2 at a concrete environment and state. -/
theorem submit_no_token_silent_witness :
    (∀ tok fb, Effect.sendFeedback tok fb ∉
        handleSendFeedback envNoToken "positive" "a@b.c" "private" []) ∧
    (∀ m l p, Effect.shareToast m l p ∉
        handleSendFeedback envNoToken "positive" "a@b.c" "private" []) ∧
    (∀ i s, Effect.errorToast i s ∉
        handleSendFeedback envNoToken "positive" "a@b.c" "private" []) :=
  submit_no_token_silent envNoToken "positive" "a@b.c" "private" [] rfl rfl

/-- C3: whenever the storage write succeeds, the submission trace starts with
the caller notification, then the `"feedback-email"` write, then the `"token"`
read, and any Remote Feedback Service invocation occurs only in the remainder
after those three. -/
theorem submit_effect_order (env : SubmitEnv)
    (polarity email permissions : String) (events : List String)
    (hset : env.setItemFails = none) :
    ∃ rest,
      handleSendFeedback env polarity email permissions events =
        Effect.onSendFeedback :: Effect.setItem "feedback-email" email ::
          Effect.getItem "token" :: rest ∧
      ∀ tok fb,
        Effect.sendFeedback tok fb ∈
            handleSendFeedback env polarity email permissions events →
          Effect.sendFeedback tok fb ∈ rest := by
  unfold handleSendFeedback
  simp only [hset]
  refine ⟨_, rfl, ?_⟩
  intro tok fb hmem
  simp only [hset, List.mem_cons] at hmem
  rcases hmem with h | h | h | h
  · exact absurd h (by simp)
  · exact absurd h (by simp)
  · exact absurd h (by simp)
  · exact h

/-- Witness for C3 at a concrete environment and state. -/
theorem submit_effect_order_witness :
    ∃ rest,
      handleSendFeedback envOk "positive" "a@b.c" "private" ["e1"] =
        Effect.onSendFeedback :: Effect.setItem "feedback-email" "a@b.c" ::
          Effect.getItem "token" :: rest ∧
      ∀ tok fb,
        Effect.sendFeedback tok fb ∈
            handleSendFeedback envOk "positive" "a@b.c" "private" ["e1"] →
          Effect.sendFeedback tok fb ∈ rest :=
  submit_effect_order envOk "positive" "a@b.c" "private" ["e1"] rfl

/-- C4: on a stored non-empty (JS-truthy) credential and a
`statusCode = 200` response, the trace
ends with a share toast carrying the response message, the link
`VIEWER_PAGE ++ "?share_id=" ++ feedback_id`, and the password; and for
feedback id `"abc123"` that link is the literal
`"https://www.all-hands.dev/share?share_id=abc123"`. -/
theorem submit_success_share_toast (env : SubmitEnv)
    (polarity email permissions : String) (events : List String)
    (tok : String) (resp : FeedbackResponse)
    (hset : env.setItemFails = none)
    (htok : env.storage "token" = some tok)
    (hne : tok ≠ "")
    (hresp : env.response = Except.ok resp)
    (hcode : resp.statusCode = 200) :
    handleSendFeedback env polarity email permissions events =
      [Effect.onSendFeedback,
       Effect.setItem "feedback-email" email,
       Effect.getItem "token",
       Effect.sendFeedback tok (mkFeedback env polarity email permissions events),
       Effect.shareToast resp.message
         (VIEWER_PAGE ++ "?share_id=" ++ resp.feedback_id) resp.password] ∧
    VIEWER_PAGE ++ "?share_id=" ++ "abc123" =
      "https://www.all-hands.dev/share?share_id=abc123" := by
  constructor
  · simp [handleSendFeedback, mkFeedback, hset, htok, hne, hresp, hcode]
  · rfl

/-- Witness for C4 at the specification's concrete example response. -/
theorem submit_success_share_toast_witness :
    handleSendFeedback envOk "positive" "user@example.com" "private" [] =
      [Effect.onSendFeedback,
       Effect.setItem "feedback-email" "user@example.com",
       Effect.getItem "token",
       Effect.sendFeedback "tok123"
         (mkFeedback envOk "positive" "user@example.com" "private" []),
       Effect.shareToast sampleResponseOk.message
         (VIEWER_PAGE ++ "?share_id=" ++ sampleResponseOk.feedback_id)
         sampleResponseOk.password] ∧
    VIEWER_PAGE ++ "?share_id=" ++ "abc123" =
      "https://www.all-hands.dev/share?share_id=abc123" :=
  submit_success_share_toast envOk "positive" "user@example.com" "private" []
    "tok123" sampleResponseOk rfl rfl (by decide) rfl rfl

/-- C5: on a stored non-empty (JS-truthy) credential and a non-200 response,
the trace ends with an
error toast whose text is the localized "failed to share" prefix followed by
the server-provided message, and no share toast appears anywhere in the
trace. -/
theorem submit_failure_error_toast (env : SubmitEnv)
    (polarity email permissions : String) (events : List String)
    (tok : String) (resp : FeedbackResponse)
    (hset : env.setItemFails = none)
    (htok : env.storage "token" = some tok)
    (hne : tok ≠ "")
    (hresp : env.response = Except.ok resp)
    (hcode : resp.statusCode ≠ 200) :
    handleSendFeedback env polarity email permissions events =
      [Effect.onSendFeedback,
       Effect.setItem "feedback-email" email,
       Effect.getItem "token",
       Effect.sendFeedback tok (mkFeedback env polarity email permissions events),
       Effect.errorToast "share-error"
         (env.t "FEEDBACK$FAILED_TO_SHARE" ++ " " ++ resp.message)] ∧
    ∀ m l p, Effect.shareToast m l p ∉
        handleSendFeedback env polarity email permissions events := by
  have htr : handleSendFeedback env polarity email permissions events =
      [Effect.onSendFeedback,
       Effect.setItem "feedback-email" email,
       Effect.getItem "token",
       Effect.sendFeedback tok (mkFeedback env polarity email permissions events),
       Effect.errorToast "share-error"
         (env.t "FEEDBACK$FAILED_TO_SHARE" ++ " " ++ resp.message)] := by
    simp [handleSendFeedback, mkFeedback, hset, htok, hne, hresp, hcode]
  refine ⟨htr, ?_⟩
  intro m l p
  rw [htr]
  simp

/-- Witness for C5 at the specification's concrete 500-response example. -/
theorem submit_failure_error_toast_witness :
    handleSendFeedback envErr "positive" "user@example.com" "private" [] =
      [Effect.onSendFeedback,
       Effect.setItem "feedback-email" "user@example.com",
       Effect.getItem "token",
       Effect.sendFeedback "tok123"
         (mkFeedback envErr "positive" "user@example.com" "private" []),
       Effect.errorToast "share-error"
         (envErr.t "FEEDBACK$FAILED_TO_SHARE" ++ " " ++ sampleResponseErr.message)] ∧
    ∀ m l p, Effect.shareToast m l p ∉
        handleSendFeedback envErr "positive" "user@example.com" "private" [] :=
  submit_failure_error_toast envErr "positive" "user@example.com" "private" []
    "tok123" sampleResponseErr rfl rfl (by decide) rfl (by decide)

/-- C6: when the credential is stored and non-empty (JS-truthy) and the
service call throws (modelled by `Except.error`), the
exception is absorbed at the submission boundary: the handler still returns a
complete trace, ending with an error toast that combines the localized
"failed to share" prefix with the stringified error, and nothing is
rethrown. -/
theorem submit_thrown_error_caught (env : SubmitEnv)
    (polarity email permissions : String) (events : List String)
    (tok err : String)
    (hset : env.setItemFails = none)
    (htok : env.storage "token" = some tok)
    (hne : tok ≠ "")
    (hresp : env.response = Except.error err) :
    handleSendFeedback env polarity email permissions events =
      [Effect.onSendFeedback,
       Effect.setItem "feedback-email" email,
       Effect.getItem "token",
       Effect.sendFeedback tok (mkFeedback env polarity email permissions events),
       Effect.errorToast "share-error"
         (env.t "FEEDBACK$FAILED_TO_SHARE" ++ " " ++ err)] := by
  simp [handleSendFeedback, mkFeedback, hset, htok, hne, hresp]

/-- Witness for C6 at a concrete environment whose network call throws. -/
theorem submit_thrown_error_caught_witness :
    handleSendFeedback envThrow "positive" "user@example.com" "private" [] =
      [Effect.onSendFeedback,
       Effect.setItem "feedback-email" "user@example.com",
       Effect.getItem "token",
       Effect.sendFeedback "tok123"
         (mkFeedback envThrow "positive" "user@example.com" "private" []),
       Effect.errorToast "share-error"
         (envThrow.t "FEEDBACK$FAILED_TO_SHARE" ++ " "
           ++ "TypeError: Failed to fetch")] :=
  submit_thrown_error_caught envThrow "positive" "user@example.com" "private" []
    "tok123" "TypeError: Failed to fetch" rfl rfl (by decide) rfl

/-- C9: with no stored credential and a healthy storage, the submission is not
a complete no-op: the trace is exactly the caller notification, the
`"feedback-email"` write, and the `"token"` read. -/
theorem submit_no_token_still_notifies (env : SubmitEnv)
    (polarity email permissions : String) (events : List String)
    (htok : env.storage "token" = none)
    (hset : env.setItemFails = none) :
    handleSendFeedback env polarity email permissions events =
      [Effect.onSendFeedback,
       Effect.setItem "feedback-email" email,
       Effect.getItem "token"] := by
  simp [handleSendFeedback, hset, htok]

/-- Witness for C9 at a concrete environment and state. -/
theorem submit_no_token_still_notifies_witness :
    handleSendFeedback envNoToken "negative" "a@b.c" "public" ["e1"] =
      [Effect.onSendFeedback,
       Effect.setItem "feedback-email" "a@b.c",
       Effect.getItem "token"] :=
  submit_no_token_still_notifies envNoToken "negative" "a@b.c" "public" ["e1"]
    rfl rfl

/-- C10: when the `"feedback-email"` storage write throws, the handler takes
the same catch path as a transport failure: no service call is made and the
trace is the caller notification followed by the error toast built from the
localized prefix and the stringified storage error. -/
theorem submit_setitem_throw_error_path (env : SubmitEnv)
    (polarity email permissions : String) (events : List String)
    (err : String)
    (hset : env.setItemFails = some err) :
    handleSendFeedback env polarity email permissions events =
      [Effect.onSendFeedback,
       Effect.errorToast "share-error"
         (env.t "FEEDBACK$FAILED_TO_SHARE" ++ " " ++ err)] ∧
    ∀ tok fb, Effect.sendFeedback tok fb ∉
        handleSendFeedback env polarity email permissions events := by
  have htr : handleSendFeedback env polarity email permissions events =
      [Effect.onSendFeedback,
       Effect.errorToast "share-error"
         (env.t "FEEDBACK$FAILED_TO_SHARE" ++ " " ++ err)] := by
    simp [handleSendFeedback, hset]
  refine ⟨htr, ?_⟩
  intro tok fb
  rw [htr]
  simp

/-- Witness for C10 at a concrete environment whose storage write throws. -/
theorem submit_setitem_throw_error_path_witness :
    handleSendFeedback envSetItemThrow "positive" "a@b.c" "private" [] =
      [Effect.onSendFeedback,
       Effect.errorToast "share-error"
         (envSetItemThrow.t "FEEDBACK$FAILED_TO_SHARE" ++ " "
           ++ "QuotaExceededError")] ∧
    ∀ tok fb, Effect.sendFeedback tok fb ∉
        handleSendFeedback envSetItemThrow "positive" "a@b.c" "private" [] :=
  submit_setitem_throw_error_path envSetItemThrow "positive" "a@b.c" "private"
    [] "QuotaExceededError" rfl

/-- C8: in every rendered state — for any stored initial email and any
sequence of edits — the Share action's disabled flag equals the negation of
`isEmailValid` on the current email state. -/
theorem share_disabled_iff_invalid (tr : String → String)
    (storage : String → Option String) (edits : List String) :
    (feedbackModalActions tr (applyEdits (initialEmail storage) edits)).get? 0 =
      some { label := tr "FEEDBACK$SHARE_LABEL"
             isDisabled := !isEmailValid (applyEdits (initialEmail storage) edits)
             closeAfterAction := true } :=
  rfl

/-- C7: a string with no `@`, or with no `.` at a position after an `@`, is
rejected by `isEmailValid`; in particular `"a@b"` and `"@b.c"` are rejected
while `"a@b.c"` is accepted. -/
theorem isEmailValid_requires_at_then_dot :
    (∀ s : String,
        ((∀ i, s.data.get? i ≠ some '@') ∨
          (∀ i j, s.data.get? i = some '@' → s.data.get? j = some '.' →
            ¬ i < j)) →
        isEmailValid s = false) ∧
    isEmailValid "a@b" = false ∧ isEmailValid "@b.c" = false ∧
    isEmailValid "a@b.c" = true := by
  refine ⟨?_, by decide, by decide, by decide⟩
  intro s h
  cases hval : isEmailValid s with
  | false => rfl
  | true =>
    exfalso
    unfold isEmailValid at hval
    simp only [List.any_eq_true, List.mem_range, Bool.and_eq_true,
      decide_eq_true_eq, List.all_eq_true] at hval
    obtain ⟨i, hi, j, hj, ⟨⟨⟨⟨⟨⟨h1, h2⟩, h3⟩, h4⟩, h5⟩, h6⟩, h7⟩, h8⟩ := hval
    rcases h with h | h
    · exact h i h4
    · exact h i j h4 h5 (by omega)

/-- Witness for C7's universal part: `"abc"` has no `@`, so it is rejected. -/
theorem isEmailValid_requires_at_then_dot_witness :
    isEmailValid "abc" = false :=
  isEmailValid_requires_at_then_dot.1 "abc"
    (Or.inl fun i h => absurd (List.get?_mem h) (by decide))

/-- Dropping up to an index whose entry is known splits off that entry. -/
lemma drop_decomp_of_get (l : List Char) (n : ℕ) (x : Char)
    (h : l.get? n = some x) : l.drop n = x :: l.drop (n + 1) := by
  induction n generalizing l with
  | zero =>
    cases l with
    | nil => simp at h
    | cons y t =>
      simp only [List.get?_cons_zero, Option.some.injEq] at h
      simp [h]
  | succ n ih =>
    cases l with
    | nil => simp at h
    | cons y t =>
      simp only [List.get?_cons_succ] at h
      simpa using ih t h

/-- The entry right after a list prefix of an append is the appended head. -/
lemma get_append_cons (a : List Char) (x : Char) (l : List Char) :
    (a ++ x :: l).get? a.length = some x := by
  induction a with
  | nil => rfl
  | cons y ys ih => simpa using ih

/-- C1 (amended): `isEmailValid` accepts exactly the strings of the shape
`[^\s@]+ @ [^\s@]+ . [^\s@]+`, where the final segment, like the other two,
excludes both whitespace and `@`. -/
theorem isEmailValid_iff_matchesEmailPattern (s : String) :
    isEmailValid s = true ↔ matchesEmailPattern s := by
  constructor
  · intro h
    unfold isEmailValid at h
    simp only [List.any_eq_true, List.mem_range, Bool.and_eq_true,
      decide_eq_true_eq, List.all_eq_true] at h
    obtain ⟨i, hi, j, hj, ⟨⟨⟨⟨⟨⟨h1, h2⟩, h3⟩, h4⟩, h5⟩, h6⟩, h7⟩, h8⟩ := h
    refine ⟨s.data.take i, (s.data.drop (i + 1)).take (j - (i + 1)),
      s.data.drop (j + 1), ?_, ?_, ?_, ?_, h6, h7, h8⟩
    · conv_lhs => rw [← List.take_append_drop i s.data]
      rw [drop_decomp_of_get s.data i '@' h4]
      conv_lhs =>
        rw [← List.take_append_drop (j - (i + 1)) (s.data.drop (i + 1))]
      rw [List.drop_drop]
      have hji : i + 1 + (j - (i + 1)) = j := by omega
      rw [hji, drop_decomp_of_get s.data j '.' h5]
    · have hl : 0 < (s.data.take i).length := by
        rw [List.length_take]; omega
      exact List.length_pos.mp hl
    · have hl : 0 < ((s.data.drop (i + 1)).take (j - (i + 1))).length := by
        rw [List.length_take, List.length_drop]; omega
      exact List.length_pos.mp hl
    · have hl : 0 < (s.data.drop (j + 1)).length := by
        rw [List.length_drop]; omega
      exact List.length_pos.mp hl
  · rintro ⟨a, b, c, hd, ha0, hb0, hc0, ha, hb, hc⟩
    have ha1 : 0 < a.length := List.length_pos.mpr ha0
    have hb1 : 0 < b.length := List.length_pos.mpr hb0
    have hc1 : 0 < c.length := List.length_pos.mpr hc0
    have hlen : s.data.length = a.length + 1 + b.length + 1 + c.length := by
      rw [hd]
      simp only [List.length_append, List.length_cons]
      omega
    unfold isEmailValid
    simp only [List.any_eq_true, List.mem_range, Bool.and_eq_true,
      decide_eq_true_eq, List.all_eq_true]
    refine ⟨a.length, by omega, a.length + 1 + b.length, by omega,
      ⟨⟨⟨⟨⟨⟨⟨by omega, by omega⟩, by omega⟩, ?_⟩, ?_⟩, ?_⟩, ?_⟩, ?_⟩⟩
    · rw [hd]
      exact get_append_cons a '@' (b ++ '.' :: c)
    · have hd2 : s.data = (a ++ '@' :: b) ++ '.' :: c := by rw [hd]; simp
      have hl2 : a.length + 1 + b.length = (a ++ '@' :: b).length := by
        simp only [List.length_append, List.length_cons]
        omega
      rw [hd2, hl2]
      exact get_append_cons (a ++ '@' :: b) '.' c
    · simp only [hd, List.take_left]
      exact ha
    · have hsub : a.length + 1 + b.length - (a.length + 1) = b.length := by
        omega
      have hdrop : s.data.drop (a.length + 1) = b ++ '.' :: c := by
        rw [hd, show a ++ '@' :: (b ++ '.' :: c)
              = (a ++ ['@']) ++ (b ++ '.' :: c) from by simp]
        exact List.drop_left' (by simp)
      simp only [hsub, hdrop, List.take_left]
      exact hb
    · have hd3 : s.data = ((a ++ '@' :: b) ++ ['.']) ++ c := by rw [hd]; simp
      have hdropc : s.data.drop (a.length + 1 + b.length + 1) = c := by
        rw [hd3]
        refine List.drop_left' ?_
        simp only [List.length_append, List.length_cons, List.length_nil]
        omega
      simp only [hdropc]
      exact hc

/-- C1 (counterexample): the claim's pattern — whose final segment excludes
only whitespace — disagrees with `isEmailValid` on `"a@b.c@d"`: the string
fits that pattern, yet the regex rejects it because its final `[^\s@]+`
also excludes `@`. -/
theorem isEmailValid_spec_pattern_counterexample :
    ¬ (isEmailValid "a@b.c@d" = true ↔ specEmailPattern "a@b.c@d") := by
  intro h
  have hspec : specEmailPattern "a@b.c@d" :=
    ⟨['a'], ['b'], ['c', '@', 'd'], by decide, by decide, by decide,
      by decide, by decide, by decide, by decide⟩
  have hval : isEmailValid "a@b.c@d" = true := h.mpr hspec
  exact absurd hval (by decide)

end FeedbackModal
